import Mathlib

/-
Verification of the record parser and import pipeline of
src/addon/globalPlugins/importJawsDict.py (the final, most complete draft in
the repository; the parallel file under addon/globalPlugin/ is an earlier
draft that contains neither the parser nor the pipeline).

The embedding models the Python code as written, including its runtime
behaviour on unresolved names and missing attributes:

  * `AttributeError`, `NameError`, `ValueError`, `TypeError` and the I/O
    errors are the constructors of `PyErr`.  The addon maps the spec's
    ContractError to AttributeError, FormatError to ValueError and
    IOError/NotFound to the I/O error (docstring of parseJDFLine,
    lines 104-105, and of importFromFile, line 362).
  * Attribute values are dynamically typed: `PyVal` is Python None, a string,
    or a boolean; an `Option PyVal` field whose value is `none` models an
    attribute that has never been assigned (reading it raises AttributeError).
  * `RECORD_EXP` (lines 74-91) is embedded with Python `re` semantics.  Note
    that inside a character class `\1` is NOT a backreference: Python parses
    it as the octal escape for the character U+0001.  So `.+[^\1]` means
    "one or more non-newline characters followed by one character other than
    U+0001", i.e. at least two characters; only the occurrences of `\1`
    outside character classes refer back to the captured separator.
    Greedy `+` with backtracking is modelled by trying the longest candidate
    field first (`gsplits` enumerates split points in decreasing length) and
    taking the first full parse, which is exactly the order in which
    CPython's regex engine explores this pattern.
-/

namespace ImportJawsDict

/-- Python exceptions that the embedded code can raise.  `attrErr` is
AttributeError (the spec's ContractError when raised for a `None` line),
`valueErr` is ValueError (the spec's FormatError), `nameErr` is NameError
(lookup of an unbound name), `typeErr` is TypeError, and `ioErr` covers
FileNotFoundError / IOError raised by `open`. -/
inductive PyErr where
  | attrErr
  | nameErr
  | valueErr
  | typeErr
  | ioErr
deriving DecidableEq, Repr

/-- A dynamically typed Python attribute value as used by `SpeechDictItem`:
`None`, a string, or a boolean (the processed `case` flag). -/
inductive PyVal where
  | pyNone
  | str (s : String)
  | bool (b : Bool)
deriving DecidableEq, Repr

/- ---------------------------------------------------------------------
   The RECORD_EXP grammar (lines 74-91)

   ^(.)                      the separator, hereinafter d (not a newline)
   (?P<inWord>.+[^\1])\1     two or more chars, none but the last a newline,
                             the last one not U+0001, then d
   (?P<outWord>.+[^\1])\1    same shape
   (?P<lang>[0-9a-zA-Z\*]+)\1
   (?P<synth>.+[^\1])\1
   (?P<voice>.+[^\1])\1
   (?:[0-9\*]+)\1            output language, captured but discarded
   (?P<case>[01])\1$
   --------------------------------------------------------------------- -/

/-- Content admissible for the `.+[^\1]` fields (inWord, outWord, synth,
voice): at least two characters, every character before the last one is not a
newline (`.`), and the last character is not U+0001 (`[^\1]` is a character
class containing the octal escape `\1`, i.e. U+0001 -- not a backreference). -/
def dotPlus (content : List Char) : Bool :=
  decide (2 ≤ content.length) &&
    content.dropLast.all (fun c => !(c == '\n')) &&
    (match content.getLast? with
     | some c => !(c == '\u0001')
     | none => false)

/-- A character admissible in the `lang` field: `[0-9a-zA-Z\*]`. -/
def isLangChar (c : Char) : Bool :=
  (decide ('0' ≤ c) && decide (c ≤ '9')) ||
    (decide ('a' ≤ c) && decide (c ≤ 'z')) ||
    (decide ('A' ≤ c) && decide (c ≤ 'Z')) ||
    c == '*'

/-- Content admissible for the `lang` field: `[0-9a-zA-Z\*]+`. -/
def langOk (content : List Char) : Bool :=
  !content.isEmpty && content.all isLangChar

/-- A character admissible in the discarded output-language field: `[0-9\*]`. -/
def isOutLangChar (c : Char) : Bool :=
  (decide ('0' ≤ c) && decide (c ≤ '9')) || c == '*'

/-- Content admissible for the output-language field: `[0-9\*]+`. -/
def outLangOk (content : List Char) : Bool :=
  !content.isEmpty && content.all isOutLangChar

/-- All decompositions `l = content ++ dl :: rest`, listed with `content` in
increasing length. -/
def splits (dl : Char) : List Char → List (List Char × List Char)
  | [] => []
  | c :: t =>
    (if c = dl then [(([] : List Char), t)] else []) ++
      (splits dl t).map (fun p => (c :: p.1, p.2))

/-- The decompositions whose content satisfies `ok`, longest content first:
the order in which a greedy `+` quantifier followed by the backreference `\1`
hands candidate field contents to the rest of the pattern. -/
def gsplits (dl : Char) (ok : List Char → Bool) (l : List Char) :
    List (List Char × List Char) :=
  ((splits dl l).filter fun p => ok p.1).reverse

/-- `(?P<case>[01])\1$`: the remaining input must be exactly one of `0`/`1`
followed by the separator at the very end of the string. -/
def parseCase (dl : Char) (l : List Char) : Option String :=
  match l with
  | [c, e] => if (c == '0' || c == '1') && e == dl then some (String.mk [c]) else none
  | _ => none

/-- `(?:[0-9\*]+)\1` then the case field; the output-language content is
validated for shape and discarded (non-capturing group). -/
def parseOutLangCase (dl : Char) (l : List Char) : Option String :=
  (gsplits dl outLangOk l).findSome? fun p => parseCase dl p.2

/-- `(?P<voice>.+[^\1])\1` then the rest; yields (voice, case). -/
def parseVoiceTail (dl : Char) (l : List Char) : Option (String × String) :=
  (gsplits dl dotPlus l).findSome? fun p =>
    (parseOutLangCase dl p.2).map fun cf => (String.mk p.1, cf)

/-- `(?P<synth>.+[^\1])\1` then the rest; yields (synth, voice, case). -/
def parseSynthTail (dl : Char) (l : List Char) :
    Option (String × String × String) :=
  (gsplits dl dotPlus l).findSome? fun p =>
    (parseVoiceTail dl p.2).map fun t => (String.mk p.1, t)

/-- `(?P<lang>[0-9a-zA-Z\*]+)\1` then the rest. -/
def parseLangTail (dl : Char) (l : List Char) :
    Option (String × String × String × String) :=
  (gsplits dl langOk l).findSome? fun p =>
    (parseSynthTail dl p.2).map fun t => (String.mk p.1, t)

/-- `(?P<outWord>.+[^\1])\1` then the rest. -/
def parseOutWordTail (dl : Char) (l : List Char) :
    Option (String × String × String × String × String) :=
  (gsplits dl dotPlus l).findSome? fun p =>
    (parseLangTail dl p.2).map fun t => (String.mk p.1, t)

/-- `(?P<inWord>.+[^\1])\1` then the rest. -/
def parseInWordTail (dl : Char) (l : List Char) :
    Option (String × String × String × String × String × String) :=
  (gsplits dl dotPlus l).findSome? fun p =>
    (parseOutWordTail dl p.2).map fun t => (String.mk p.1, t)

/-- The named captures of a successful `RECORD_EXP.fullmatch`. -/
structure Caps where
  sep : Char
  inWord : String
  outWord : String
  lang : String
  synth : String
  voice : String
  caseFlag : String
deriving DecidableEq, Repr

/-- `RECORD_EXP.fullmatch` on a whole string: the separator is the first
character (`^(.)`, not a newline), every later `\1` must equal it, and the
match must consume the string to its very end (fullmatch). -/
def recordMatch (s : String) : Option Caps :=
  match s.data with
  | [] => none
  | dl :: rest =>
    if dl == '\n' then none
    else
      (parseInWordTail dl rest).map fun t =>
        { sep := dl, inWord := t.1, outWord := t.2.1, lang := t.2.2.1,
          synth := t.2.2.2.1, voice := t.2.2.2.2.1, caseFlag := t.2.2.2.2.2 }

example : recordMatch ".hello.hi.09.sy.vo.0.1." =
    some ⟨'.', "hello", "hi", "09", "sy", "vo", "1"⟩ := by decide

example : recordMatch ".cat.kat.*.*.*.*.0." = none := by decide

/- ---------------------------------------------------------------------
   Sound-tag stripping (process, line 138):
   re.sub(r"<sound +.*?/>", "", self.outWord, flags=re.IGNORECASE)
   --------------------------------------------------------------------- -/

/-- ASCII-adequate model of `re.IGNORECASE` comparison of one character. -/
def ciEq (a b : Char) : Bool := a.toLower == b.toLower

/-- The `.*?/>` part: lazily scan for the first occurrence of the two-
character closer, never crossing a newline (`.` does not match a newline);
returns the input remaining after the closer. -/
def findClose : List Char → Option (List Char)
  | '/' :: '>' :: rest => some rest
  | '\n' :: _ => none
  | _ :: rest => findClose rest
  | [] => none

/-- Does `<sound +.*?/>` match starting at the head of `l`?  The literal
`<sound` (case-insensitively) must be followed by at least one space; the
greedy space run and the lazy dot-star together reach exactly up to the first
subsequent closer, with no newline in between.  Returns the input remaining
after the match. -/
def soundMatchAt (l : List Char) : Option (List Char) :=
  match l with
  | c0 :: c1 :: c2 :: c3 :: c4 :: c5 :: c6 :: rest =>
    if c0 == '<' && ciEq c1 's' && ciEq c2 'o' && ciEq c3 'u' &&
        ciEq c4 'n' && ciEq c5 'd' && c6 == ' '
    then findClose rest
    else none
  | _ => none

/-- `re.sub` with empty replacement: scan left to right, delete each
leftmost non-overlapping match, continue after it.  The fuel is the input
length; every step consumes at least one character (a match consumes nine or
more), so the fuel never runs out when started at the length. -/
def soundSubAux : Nat → List Char → List Char
  | 0, l => l
  | _ + 1, [] => []
  | fuel + 1, c :: rest =>
    match soundMatchAt (c :: rest) with
    | some rem => soundSubAux fuel rem
    | none => c :: soundSubAux fuel rest

/-- `re.sub(r"<sound +.*?/>", "", s, flags=re.IGNORECASE)`. -/
def soundSub (s : String) : String :=
  String.mk (soundSubAux s.data.length s.data)

example : soundSub "<sound x=1/>hi" = "hi" := by decide

example : soundSub "<sound/>hi" = "<sound/>hi" := by decide

/-- Statement vocabulary: `pat` is a prefix of `l` (exact characters). -/
def startsWithL : List Char → List Char → Bool
  | [], _ => true
  | _ :: _, [] => false
  | p :: ps, c :: cs => p == c && startsWithL ps cs

/-- Statement vocabulary: `pat` occurs somewhere inside `l`. -/
def containsL (pat : List Char) : List Char → Bool
  | [] => startsWithL pat []
  | c :: t => startsWithL pat (c :: t) || containsL pat t

/- ---------------------------------------------------------------------
   SpeechDictItem (lines 43-158)
   --------------------------------------------------------------------- -/

/-- The attribute state of one `SpeechDictItem` object.  A field holding
`Option.none` is an attribute that has never been assigned: reading it
raises AttributeError.  The source names the last field `case`; that word is
reserved in Lean, so it is called `caseFlag` here. -/
structure RecState where
  inWord : Option PyVal
  outWord : Option PyVal
  lang : Option PyVal
  synth : Option PyVal
  voice : Option PyVal
  caseFlag : Option PyVal
  isValid : Bool
deriving DecidableEq, Repr

/-- The state of a freshly allocated `SpeechDictItem` right after
`self.isValid = False` (line 97): no parsed attribute exists yet. -/
def emptyRec : RecState :=
  { inWord := none, outWord := none, lang := none, synth := none,
    voice := none, caseFlag := none, isValid := false }

/-- `parseJDFLine` (lines 102-120), exactly as written.  A `None` line is
rejected with AttributeError (line 109).  For any other line, line 113
evaluates `RECORD_EXP.fullmatch(strip(line))`: both `RECORD_EXP` and `strip`
are unresolved names inside the method (`RECORD_EXP` is a class attribute,
reachable only as `self.RECORD_EXP`, and there is no builtin `strip`), so the
statement raises NameError before any matching happens.  Lines 114-120 --
including the `for field, value in record.groupdict().values()` loop, which
would itself unpack the captured strings instead of (name, value) pairs --
are unreachable. -/
def parseJDFLine (_st : RecState) (line : Option String) :
    Except PyErr RecState :=
  match line with
  | none => Except.error PyErr.attrErr
  | some _ => Except.error PyErr.nameErr

/-- The normalization block guarded by `contextlib.suppress(AttributeError)`
(lines 141-155).  Reading a missing attribute raises AttributeError, which
the context manager swallows while abandoning the REST of the block;
assignments already made persist.  The four steps, in order: map `""`/`"*"`
to None for `lang`, `synth` and `voice`, then coerce `case` to a boolean
(`True` exactly when it is not None and equals `"1"`). -/
def suppressBlock (st : RecState) : RecState :=
  match st.lang with
  | none => st
  | some lv =>
    let st1 := { st with
      lang := some (if lv = PyVal.str "" ∨ lv = PyVal.str "*" then PyVal.pyNone else lv) }
    match st1.synth with
    | none => st1
    | some sv =>
      let st2 := { st1 with
        synth := some (if sv = PyVal.str "" ∨ sv = PyVal.str "*" then PyVal.pyNone else sv) }
      match st2.voice with
      | none => st2
      | some vv =>
        let st3 := { st2 with
          voice := some (if vv = PyVal.str "" ∨ vv = PyVal.str "*" then PyVal.pyNone else vv) }
        match st3.caseFlag with
        | none => st3
        | some cv =>
          { st3 with
            caseFlag := some (PyVal.bool
              (decide (cv ≠ PyVal.pyNone) && decide (cv = PyVal.str "1"))) }

/-- `process` (lines 122-158), exactly as written: clear `isValid`; reject a
missing/None/empty in-word (reading a missing attribute is AttributeError,
`len` of a non-string is TypeError, the explicit checks raise ValueError);
reject a missing/None out-word; strip sound tags from the out-word and store
the result before checking it is still non-empty; run the suppressed
normalization block; finally set `isValid` and return the object. -/
def process (st0 : RecState) : Except PyErr RecState :=
  let st := { st0 with isValid := false }
  match st.inWord with
  | none => Except.error PyErr.attrErr
  | some iw =>
    if iw = PyVal.pyNone then Except.error PyErr.valueErr
    else
      match iw with
      | PyVal.str s =>
        if s.length < 1 then Except.error PyErr.valueErr
        else
          match st.outWord with
          | none => Except.error PyErr.attrErr
          | some ow =>
            if ow = PyVal.pyNone then Except.error PyErr.valueErr
            else
              match ow with
              | PyVal.str t =>
                let st1 := { st with outWord := some (PyVal.str (soundSub t)) }
                if (soundSub t).length < 1 then Except.error PyErr.valueErr
                else Except.ok { suppressBlock st1 with isValid := true }
              | _ => Except.error PyErr.typeErr
      | _ => Except.error PyErr.typeErr

/-- `SpeechDictItem.__init__` (lines 93-100): set `isValid := False`, run
`parseJDFLine` on the given line, then `process` the resulting attributes.
Any exception escapes to the caller. -/
def speechDictItemNew (line : Option String) : Except PyErr RecState := do
  let st ← parseJDFLine emptyRec line
  process st

/- ---------------------------------------------------------------------
   GlobalPlugin.importFromFile (lines 359-384)
   --------------------------------------------------------------------- -/

/-- The four accumulators of the plugin that `importFromFile` (re)creates:
`self.importables` (a deque, modelled as a list with appends on the right),
`self.unimportables`, `self.lineCount` and `self.recordCount`. -/
structure PluginState where
  importables : List RecState
  unimportables : List String
  lineCount : Nat
  recordCount : Nat
deriving DecidableEq, Repr

/-- The attributes `collections.deque` actually exposes, looked up by name
(Python resolves attribute names at run time, case-sensitively). -/
def dequeAttr (name : String) : Option Unit :=
  if name = "append" then some () else none

/-- The body of the `try` at lines 380-382.  Python resolves the callee
`self.importables.Append` before evaluating the argument; `deque` has the
method `append` but no attribute `Append`, so the lookup raises
AttributeError and `SpeechDictItem(line)` is never even constructed.  The
second branch spells out the remaining statements as written, for the record:
append the new item, then increment `recordCount`. -/
def importTryBody (st : PluginState) (line : String) :
    Except PyErr PluginState :=
  match dequeAttr "Append" with
  | none => Except.error PyErr.attrErr
  | some _ => do
    let item ← speechDictItemNew (some line)
    let st1 := { st with importables := st.importables ++ [item] }
    Except.ok { st1 with recordCount := st1.recordCount + 1 }

/-- The `for line in jdf` loop of lines 377-384.  Each iteration first
increments `lineCount`; the `except ValueError` handler at line 384 runs
`unimportables.Append(line)`, but `unimportables` is an unbound name (the
attribute is `self.unimportables`), so the handler itself raises NameError;
any exception other than ValueError propagates directly.  An escaping
exception carries the object state mutated so far. -/
def importLoop (st : PluginState) : List String → PluginState × Option PyErr
  | [] => (st, none)
  | line :: rest =>
    let st1 := { st with lineCount := st.lineCount + 1 }
    match importTryBody st1 line with
    | Except.ok st2 => importLoop st2 rest
    | Except.error PyErr.valueErr => (st1, some PyErr.nameErr)
    | Except.error e => (st1, some e)

/-- `importFromFile` (lines 359-384).  The four accumulators are reset
(lines 367-373) BEFORE the file is opened (line 375); the previous plugin
state is discarded wholesale.  `readFile` models the file system: `none`
means `open` raises FileNotFoundError/IOError, otherwise it yields the lines
of the file in order (their trailing newline terminators are irrelevant
here: the only code that would touch line content is unreachable).  The
result pairs the final attribute state with the exception escaping the call,
if any. -/
def importFromFile (readFile : String → Option (List String))
    (pathAndFile : String) (_prior : PluginState) : PluginState × Option PyErr :=
  let st0 : PluginState :=
    { importables := [], unimportables := [], lineCount := 0, recordCount := 0 }
  match readFile pathAndFile with
  | none => (st0, some PyErr.ioErr)
  | some lines => importLoop st0 lines

/- ---------------------------------------------------------------------
   Helper lemmas
   --------------------------------------------------------------------- -/

theorem mem_gsplits_ok {dl : Char} {ok : List Char → Bool} {l : List Char}
    {p : List Char × List Char} (h : p ∈ gsplits dl ok l) : ok p.1 = true := by
  unfold gsplits at h
  rw [List.mem_reverse] at h
  exact (List.mem_filter.mp h).2

theorem dotPlus_length {content : List Char} (h : dotPlus content = true) :
    2 ≤ content.length := by
  unfold dotPlus at h
  simp only [Bool.and_eq_true, decide_eq_true_eq] at h
  exact h.1.1

theorem parseOutWordTail_outWord {dl : Char} {l : List Char}
    {t : String × String × String × String × String}
    (h : parseOutWordTail dl l = some t) : 2 ≤ t.1.length := by
  unfold parseOutWordTail at h
  obtain ⟨p, hp, hfp⟩ := List.exists_of_findSome?_eq_some h
  rw [Option.map_eq_some'] at hfp
  obtain ⟨u, _, rfl⟩ := hfp
  exact dotPlus_length (mem_gsplits_ok hp)

theorem suppressBlock_caseFlag_of_absent {st : RecState}
    (h : st.lang = none ∨ st.synth = none ∨ st.voice = none) :
    (suppressBlock st).caseFlag = st.caseFlag := by
  obtain ⟨iw, ow, lg, sy, vo, cf, vl⟩ := st
  rcases lg with _ | lv <;> rcases sy with _ | sv <;> rcases vo with _ | vv <;>
    simp_all [suppressBlock]

theorem process_eq_of_str {iw ow : String} {lg sy vo cf : Option PyVal}
    {vl : Bool} (h1 : 1 ≤ iw.length) (h2 : 1 ≤ (soundSub ow).length) :
    process ⟨some (PyVal.str iw), some (PyVal.str ow), lg, sy, vo, cf, vl⟩
      = Except.ok { suppressBlock
          ⟨some (PyVal.str iw), some (PyVal.str (soundSub ow)), lg, sy, vo, cf, false⟩
          with isValid := true } := by
  have h1' : ¬ (iw.length < 1) := by omega
  have h2' : ¬ ((soundSub ow).length < 1) := by omega
  simp [process, h1', h2']

/- ---------------------------------------------------------------------
   The claims
   --------------------------------------------------------------------- -/

/-- Claim C1 (code bug).  The spec's balance invariant together with its
example requires a 10-line file with 7 parseable lines to complete with
lineCount 10, recordCount 7, 7 accepted and 3 rejected.  The code instead
aborts every non-empty import on its first line: `self.importables.Append`
raises AttributeError (deque has `append`, not `Append`), which the
`except ValueError` clause does not catch.  The final state shows
lineCount 1 and nothing accepted or rejected.  The second and third
conjuncts record that seven of the lines do match the record grammar and
three do not, so the spec's example file shape is the one exercised. -/
theorem claimC1_import_aborts :
    importFromFile
      (fun p => if p = "dict.jdf" then
        some [".hello.hi.09.sy.vo.0.1.", ".hello.hi.09.sy.vo.0.1.", "bad",
              ".hello.hi.09.sy.vo.0.1.", ".hello.hi.09.sy.vo.0.1.", "bad",
              ".hello.hi.09.sy.vo.0.1.", ".hello.hi.09.sy.vo.0.1.", "bad",
              ".hello.hi.09.sy.vo.0.1."] else none)
      "dict.jdf"
      { importables := [], unimportables := ["stale"], lineCount := 9, recordCount := 9 }
    = ({ importables := [], unimportables := [], lineCount := 1, recordCount := 0 },
        some PyErr.attrErr)
    ∧ (recordMatch ".hello.hi.09.sy.vo.0.1.").isSome = true
    ∧ recordMatch "bad" = none :=
  ⟨rfl, by decide, by decide⟩

/-- Claim C2 (code bug).  The spec requires a malformed line to be absorbed:
appended to the reject list, scan continuing.  In the code the very first
line -- malformed or not -- aborts the import with an uncaught
AttributeError (`deque.Append`), the reject list stays empty, and the error
escapes `importFromFile`. -/
theorem claimC2_reject_lost :
    importFromFile (fun _ => some ["not a record at all"]) "bad.jdf"
      { importables := [], unimportables := [], lineCount := 0, recordCount := 0 }
    = ({ importables := [], unimportables := [], lineCount := 1, recordCount := 0 },
        some PyErr.attrErr) :=
  rfl

/-- Claim C3 (code bug).  The spec example line `.cat.kat.*.*.*.*.0.` is
supposed to parse into a fully normalized Rule.  In the code it cannot:
`parseJDFLine` raises NameError on every non-None line before any matching
(unresolved names `strip` and `RECORD_EXP`), and independently the grammar
itself rejects the line, because `[^\1]` inside a character class is the
octal escape for U+0001, forcing the synth and voice fields to have at least
two characters -- the single-character `*` fields can never match. -/
theorem claimC3_example_rejected :
    speechDictItemNew (some ".cat.kat.*.*.*.*.0.") = Except.error PyErr.nameErr
    ∧ recordMatch ".cat.kat.*.*.*.*.0." = none :=
  ⟨rfl, by decide⟩

/-- Claim C4 (code bug).  For a line that does match the record grammar and
carries a sound tag in its out-word, the claim requires `parseLine` to
return a Rule whose outWord is the stripped text.  The stripping rule of the
`process` step behaves exactly as claimed (second conjunct), but no Rule is
ever produced: `parseJDFLine` raises NameError on every line (third
conjunct), so the grammar match of the first conjunct is never reached. -/
theorem claimC4_strip_unreachable :
    recordMatch ".hello.<sound x=1/>hi.09.sy.vo.0.1."
      = some ⟨'.', "hello", "<sound x=1/>hi", "09", "sy", "vo", "1"⟩
    ∧ soundSub "<sound x=1/>hi" = "hi"
    ∧ speechDictItemNew (some ".hello.<sound x=1/>hi.09.sy.vo.0.1.")
      = Except.error PyErr.nameErr :=
  ⟨by decide, by decide, rfl⟩

/-- Claim C5, counterexample.  The grammar does NOT structurally exclude the
separator from the interior of the in-word: on a line with one extra
separator-delimited segment, `RECORD_EXP` matches with the in-word capture
`a.b`, which contains the separator `.` of the line. -/
theorem claimC5_counterexample :
    recordMatch ".a.b.cd.ef.gh.ij.0.1."
      = some ⟨'.', "a.b", "cd", "ef", "gh", "ij", "1"⟩
    ∧ '.' ∈ ("a.b" : String).data :=
  ⟨by decide, by decide⟩

/-- Claim C5 as amended.  What the grammar does enforce for the in-word and
out-word fields is non-emptiness: every successful match captures at least
two characters for each (the `.+[^\1]` shape), `[^\1]` being the character
class excluding U+0001 rather than a backreference; the separator character
itself is not excluded from the interior of the two fields. -/
theorem claimC5_amended (s : String) (caps : Caps)
    (h : recordMatch s = some caps) :
    2 ≤ caps.inWord.length ∧ 2 ≤ caps.outWord.length := by
  unfold recordMatch at h
  split at h
  · exact absurd h (by simp)
  · split at h
    · exact absurd h (by simp)
    · rw [Option.map_eq_some'] at h
      obtain ⟨t, ht, rfl⟩ := h
      unfold parseInWordTail at ht
      obtain ⟨p, hp, hfp⟩ := List.exists_of_findSome?_eq_some ht
      rw [Option.map_eq_some'] at hfp
      obtain ⟨u, hu, rfl⟩ := hfp
      exact ⟨dotPlus_length (mem_gsplits_ok hp), parseOutWordTail_outWord hu⟩

/-- Witness for the amended claim C5 at a concrete matching line. -/
theorem claimC5_amended_witness :
    2 ≤ (Caps.inWord ⟨'.', "ab", "cd", "ef", "gh", "ij", "1"⟩).length
    ∧ 2 ≤ (Caps.outWord ⟨'.', "ab", "cd", "ef", "gh", "ij", "1"⟩).length :=
  claimC5_amended ".ab.cd.ef.gh.ij.0.1." ⟨'.', "ab", "cd", "ef", "gh", "ij", "1"⟩
    (by decide)

/-- Claim C6 (code bug).  A line whose lang field is the wildcard `*` does
match the grammar (first conjunct), and the normalization step of `process`
does send `*` to None and the case flag to a boolean when the attributes are
populated (third conjunct, the claim's intent).  But `parseLine` never
accepts any line at all: constructing a `SpeechDictItem` from the line
raises NameError (second conjunct), so no accepted Rule ever exists. -/
theorem claimC6_wildcard_unreachable :
    recordMatch ".cat.kat.*.sy.vo.0.1."
      = some ⟨'.', "cat", "kat", "*", "sy", "vo", "1"⟩
    ∧ speechDictItemNew (some ".cat.kat.*.sy.vo.0.1.") = Except.error PyErr.nameErr
    ∧ process
        { inWord := some (PyVal.str "cat"), outWord := some (PyVal.str "kat"),
          lang := some (PyVal.str "*"), synth := some (PyVal.str "sy"),
          voice := some (PyVal.str "vo"), caseFlag := some (PyVal.str "1"),
          isValid := false }
      = Except.ok
        { inWord := some (PyVal.str "cat"), outWord := some (PyVal.str "kat"),
          lang := some PyVal.pyNone, synth := some (PyVal.str "sy"),
          voice := some (PyVal.str "vo"), caseFlag := some (PyVal.bool true),
          isValid := true } :=
  ⟨by decide, rfl, rfl⟩

/-- Claim C7 (code bug).  A None line does raise the contract-kind error
(AttributeError), as claimed.  But a non-null line that fails to match does
not raise the format-kind error (ValueError) promised by the claim and by
the function's own docstring: it raises NameError, a different kind, because
`strip` and `RECORD_EXP` are unresolved names at line 113. -/
theorem claimC7_error_kinds :
    parseJDFLine emptyRec none = Except.error PyErr.attrErr
    ∧ parseJDFLine emptyRec (some "not a record at all")
        = Except.error PyErr.nameErr
    ∧ PyErr.nameErr ≠ PyErr.valueErr :=
  ⟨rfl, rfl, by decide⟩

/-- Claim C8 (confirmed).  `importFromFile` overwrites all four accumulators
with empty/zero values before attempting to open the path, so when the open
fails the plugin is left with empty accumulators and the prior import's
results are gone, whatever they were. -/
theorem claimC8_reset_before_open
    (readFile : String → Option (List String)) (path : String)
    (prior : PluginState) (h : readFile path = none) :
    importFromFile readFile path prior
      = ({ importables := [], unimportables := [], lineCount := 0,
           recordCount := 0 }, some PyErr.ioErr) := by
  unfold importFromFile
  rw [h]

/-- Witness for claim C8: a missing file wipes a non-trivial prior state. -/
theorem claimC8_reset_before_open_witness :
    importFromFile (fun _ => none) "missing.jdf"
      { importables := [emptyRec], unimportables := ["old line"],
        lineCount := 4, recordCount := 3 }
      = ({ importables := [], unimportables := [], lineCount := 0,
           recordCount := 0 }, some PyErr.ioErr) :=
  claimC8_reset_before_open (fun _ => none) "missing.jdf" _ rfl

/-- Claim C9 (confirmed).  If any of the lang, synth or voice attributes is
missing, the AttributeError raised inside the `contextlib.suppress` block
abandons the rest of the normalization -- including the boolean coercion of
the case flag -- yet `process` still completes with `isValid` true and the
case attribute exactly as it was (e.g. still the raw string "1"). -/
theorem claimC9_suppressed_skip (st : RecState) (w v : String)
    (hin : st.inWord = some (PyVal.str w)) (hw : 1 ≤ w.length)
    (hout : st.outWord = some (PyVal.str v)) (hv : 1 ≤ (soundSub v).length)
    (habs : st.lang = none ∨ st.synth = none ∨ st.voice = none) :
    ∃ st1, process st = Except.ok st1 ∧ st1.isValid = true
      ∧ st1.caseFlag = st.caseFlag := by
  obtain ⟨iw, ow, lg, sy, vo, cf, vl⟩ := st
  simp only at hin hout habs
  subst hin
  subst hout
  refine ⟨_, process_eq_of_str hw hv, rfl, ?_⟩
  exact suppressBlock_caseFlag_of_absent habs

/-- Witness for claim C9: a record with in-word "cat", out-word "kat", a
missing lang attribute and the raw case string "1" survives `process` with
`isValid` true and the case flag still the raw string. -/
theorem claimC9_suppressed_skip_witness :
    ∃ st1,
      process { inWord := some (PyVal.str "cat"), outWord := some (PyVal.str "kat"),
                lang := none, synth := some (PyVal.str "sy"),
                voice := some (PyVal.str "vo"), caseFlag := some (PyVal.str "1"),
                isValid := false }
        = Except.ok st1 ∧ st1.isValid = true
      ∧ st1.caseFlag
          = RecState.caseFlag
            { inWord := some (PyVal.str "cat"), outWord := some (PyVal.str "kat"),
              lang := none, synth := some (PyVal.str "sy"),
              voice := some (PyVal.str "vo"), caseFlag := some (PyVal.str "1"),
              isValid := false } :=
  claimC9_suppressed_skip _ "cat" "kat" rfl (by decide) rfl (by decide)
    (Or.inl rfl)

/-- Claim C10, counterexample.  An out-word containing the bare `<sound/>`
does not always keep it: in `<sound <sound/>x` the bare tag sits inside a
larger `<sound ...attributes.../>` match (the lazy closer search stops at
the `/>` of the inner tag), so the whole region is deleted and the result
`x` no longer contains `<sound/>`. -/
theorem claimC10_counterexample :
    containsL ("<sound/>".data) ("<sound <sound/>x".data) = true
    ∧ soundSub "<sound <sound/>x" = "x"
    ∧ containsL ("<sound/>".data) ((soundSub "<sound <sound/>x").data) = false :=
  ⟨by decide, by decide, by decide⟩

/-- Claim C10 as amended.  The pattern `<sound +.*?/>` demands at least one
space after `sound`, so no match of the sound-tag pattern ever BEGINS at a
bare `<sound/>` occurrence; a bare tag is removed only when it lies inside a
larger match.  In particular an out-word that is a bare tag followed by
plain text passes through the substitution unchanged. -/
theorem claimC10_amended :
    (∀ rest : List Char,
      soundMatchAt ('<' :: 's' :: 'o' :: 'u' :: 'n' :: 'd' :: '/' :: '>' :: rest)
        = none)
    ∧ soundSub "<sound/>hi" = "<sound/>hi" :=
  ⟨fun _ => rfl, by decide⟩

end ImportJawsDict
